import Mathlib

/-
  Verification of the BlueJeans backend adapter
  (officehours_api/backends/bluejeans.py).

  The file shallowly embeds the adapter: Python dict values become an
  inductive `Value` with Python truthiness, the backend metadata dict
  becomes an association list `Dict`, the stateful `BluejeansClient`
  becomes explicit state passing over `ClientState`, HTTP responses are
  explicit records, and raising becomes `Except`.
-/

set_option autoImplicit false

/-- A Python value as it appears in the backend metadata dict and in JSON
responses: None, int, str or bool. -/
inductive Value where
  | vnone : Value
  | vint (i : Int) : Value
  | vstr (s : String) : Value
  | vbool (b : Bool) : Value
deriving DecidableEq, Repr

/-- Python truthiness of a value: None is falsy, an int is truthy iff
nonzero, a str iff nonempty, a bool iff true. -/
def Value.truthy : Value → Bool
  | Value.vnone => false
  | Value.vint i => i != 0
  | Value.vstr s => s != ""
  | Value.vbool b => b

/-- Truthiness of the result of a Python `dict.get`: a missing key yields
None, which is falsy. -/
def optTruthy : Option Value → Bool
  | none => false
  | some v => v.truthy

/-- A Python dict with string keys, modelled as an association list whose
lookup returns the first matching binding. -/
abbrev Dict := List (String × Value)

/-- Embeds `d.get(key)`: the value bound to `key`, or `none` when absent. -/
def Dict.get : Dict → String → Option Value
  | [], _ => none
  | (k, v) :: rest, key => if k = key then some v else Dict.get rest key

/-- Embeds `d[key] = val`: replace the first binding of `key`, or append a
new binding when `key` is absent. -/
def Dict.set : Dict → String → Value → Dict
  | [], key, val => [(key, val)]
  | (k, v) :: rest, key, val =>
      if k = key then (k, val) :: rest else (k, v) :: Dict.set rest key val

/-- Embeds `d.update(kvs)`: set each binding of `kvs` in order. -/
def Dict.update (d : Dict) (kvs : List (String × Value)) : Dict :=
  kvs.foldl (fun acc kv => Dict.set acc kv.1 kv.2) d

theorem Dict.get_set_eq (d : Dict) (k : String) (v : Value) :
    Dict.get (Dict.set d k v) k = some v := by
  induction d with
  | nil => simp [Dict.set, Dict.get]
  | cons hd tl ih =>
      cases hd with
      | mk k0 v0 =>
          by_cases h : k0 = k
          · simp [Dict.set, Dict.get, h]
          · simp [Dict.set, Dict.get, h, ih]

theorem Dict.get_set_ne (d : Dict) (k k2 : String) (v : Value) (h : k ≠ k2) :
    Dict.get (Dict.set d k v) k2 = Dict.get d k2 := by
  induction d with
  | nil => simp [Dict.set, Dict.get, h]
  | cons hd tl ih =>
      cases hd with
      | mk k0 v0 =>
          by_cases h0 : k0 = k
          · subst h0
            simp [Dict.set, Dict.get, h]
          · simp only [Dict.set, if_neg h0, Dict.get]
            by_cases h2 : k0 = k2
            · simp [h2]
            · simp [h2, ih]

theorem Dict.get_update_notin (d : Dict) (kvs : List (String × Value)) (k : String)
    (h : ∀ kv ∈ kvs, kv.1 ≠ k) :
    Dict.get (Dict.update d kvs) k = Dict.get d k := by
  induction kvs generalizing d with
  | nil => rfl
  | cons hd tl ih =>
      have h1 : hd.1 ≠ k := h hd (List.mem_cons_self hd tl)
      have h2 : ∀ kv ∈ tl, kv.1 ≠ k := fun kv hkv => h kv (List.mem_cons_of_mem hd hkv)
      show Dict.get (Dict.update (Dict.set d hd.1 hd.2) tl) k = Dict.get d k
      rw [ih (Dict.set d hd.1 hd.2) h2, Dict.get_set_ne d hd.1 k hd.2 h1]

/-- An exception propagated out of the client, as raised by the embedded
Python code: `requests` raising on a 4xx or 5xx status, the explicit
too-many-users Exception of `get_user`, or the IndexError of indexing an
empty user list. -/
inductive PyError where
  | httpError (status : Nat) : PyError
  | tooManyUsers (email : String) : PyError
  | indexError : PyError
deriving DecidableEq, Repr

/-- Embeds `Response.raise_for_status` of the requests library: it raises
exactly when the status code is in 400..599. -/
def raisesForStatus (status : Nat) : Bool :=
  400 ≤ status && status < 600

/-- The mutable state of a `BluejeansClient` instance: cached access token,
its expiry timestamp, the enterprise id, and the Authorization header of
the cached requests session. Times are in seconds. -/
structure ClientState where
  access_token : Option String
  access_token_expires : Int
  enterprise_id : Option String
  session_authorization : Option String
deriving DecidableEq, Repr

/-- The state set up by `BluejeansClient.__init__`: no token, expiry 0, no
enterprise id, no Authorization header on the fresh session. -/
def initClientState : ClientState :=
  { access_token := none
  , access_token_expires := 0
  , enterprise_id := none
  , session_authorization := none }

/-- The OAuth2 token response consumed by `_update_access_token`: HTTP
status, `access_token`, `expires_in`, and the enterprise id nested under
`scope`. -/
structure TokenResponse where
  status : Nat
  access_token : String
  expires_in : Int
  scope_enterprise : String
deriving DecidableEq, Repr

/-- Embeds `BluejeansClient._update_access_token`, run at time `now`: POST
the client credentials, raise on a 4xx or 5xx status, otherwise store the
new access token, set the expiry to `now - expires_in - 60`, and store the
enterprise id taken from the nested scope field of the response. -/
def update_access_token (st : ClientState) (now : Int) (resp : TokenResponse) :
    Except PyError ClientState :=
  if raisesForStatus resp.status then
    Except.error (PyError.httpError resp.status)
  else
    Except.ok
      { st with
        access_token := some resp.access_token
      , access_token_expires := now - resp.expires_in - 60
      , enterprise_id := some resp.scope_enterprise }

/-- Embeds the `_session` property: when the current time `nowCheck` has
passed the stored expiry, refresh the token (at time `nowRefresh`, with
the token endpoint answering `resp`) and set the session Authorization
header; otherwise hand back the session untouched. The boolean records
whether a token request was issued. -/
def ensureSession (st : ClientState) (nowCheck nowRefresh : Int)
    (resp : TokenResponse) : Except PyError ClientState × Bool :=
  if st.access_token_expires < nowCheck then
    match update_access_token st nowRefresh resp with
    | Except.error e => (Except.error e, true)
    | Except.ok st2 =>
        (Except.ok
          { st2 with
            session_authorization :=
              some (("Bearer ") ++ resp.access_token) }, true)
  else
    (Except.ok st, false)

/-- A sequence of `_session` accesses on one client instance: each step
carries the check time, the refresh time and the token-endpoint response
it would see. Returns the list of issued-a-token-request flags, one per
step taken, and the final state (or the first error). -/
def sessionCalls (st : ClientState) :
    List (Int × Int × TokenResponse) → List Bool × Except PyError ClientState
  | [] => ([], Except.ok st)
  | (c, r, resp) :: rest =>
      match ensureSession st c r resp with
      | (Except.error e, flag) => ([flag], Except.error e)
      | (Except.ok st2, flag) =>
          let done := sessionCalls st2 rest
          (flag :: done.1, done.2)

/-- A BlueJeans user record, per the `BluejeansUser` TypedDict. -/
structure BluejeansUser where
  id : Int
  uri : String
  username : String
  firstName : String
  middleName : String
  lastName : String
  email : String
deriving DecidableEq, Repr

/-- The enterprise user-search response consumed by `get_user`: HTTP
status and the parsed JSON body with `count` and `users`. -/
structure UsersResponse where
  status : Nat
  count : Int
  users : List BluejeansUser
deriving DecidableEq, Repr

/-- Embeds `BluejeansClient.get_user` once the session GET has produced
`resp`: return None on a 404 status, raise on any other 4xx or 5xx
status, raise when `count > 1`, return None when `count = 0`, otherwise
return `users[0]` (an IndexError when the list is empty). -/
def get_user (user_email : String) (resp : UsersResponse) :
    Except PyError (Option BluejeansUser) :=
  if resp.status = 404 then
    Except.ok none
  else if raisesForStatus resp.status then
    Except.error (PyError.httpError resp.status)
  else if resp.count > 1 then
    Except.error (PyError.tooManyUsers user_email)
  else if resp.count = 0 then
    Except.ok none
  else
    match resp.users with
    | [] => Except.error PyError.indexError
    | u :: _ => Except.ok (some u)

/-- A meeting-settings payload as POSTed by the client. The
`advancedMeetingOptions.moderatorLess` flag is present only in the
payload built by `Backend.save_user_meeting`. -/
structure MeetingSettings where
  title : String
  description : String
  moderatorLess : Option Bool
  start : Int
  finish : Int
  timezone : String
  endPointType : String
  endPointVersion : String
deriving DecidableEq, Repr

/-- The default payload built inside `create_meeting` when no settings are
given: `now = round(time.time()) * 1000` and a window of `60 * 30 * 1000`
milliseconds. `roundedTime` stands for `round(time.time())`, the current
time rounded to whole seconds. -/
def defaultMeetingSettings (roundedTime : Int) : MeetingSettings :=
  { title := "Remote Office Hours"
  , description := ""
  , moderatorLess := none
  , start := roundedTime * 1000
  , finish := roundedTime * 1000 + (60 * 30 * 1000)
  , timezone := "America/Detroit"
  , endPointType := "WEB_APP"
  , endPointVersion := "2.10" }

/-- The payload `create_meeting` actually POSTs: the caller-supplied
settings, or the default payload when none are supplied. -/
def create_meeting_payload (roundedTime : Int)
    (meeting_settings : Option MeetingSettings) : MeetingSettings :=
  match meeting_settings with
  | none => defaultMeetingSettings roundedTime
  | some s => s

/-- A created scheduled-meeting resource, restricted to the two fields the
adapter reads back: `id` and `numericMeetingId`. -/
structure Meeting where
  id : Int
  numericMeetingId : Int
deriving DecidableEq, Repr

/-- A provider-client call issued by `Backend.save_user_meeting`, recorded
for the call trace. -/
inductive ClientCall where
  | getUser (email : String) : ClientCall
  | createMeeting (user_id : Int) (settings : MeetingSettings) : ClientCall
deriving DecidableEq, Repr

/-- The outcomes of the provider-client calls `save_user_meeting` may
issue: what `get_user` returns for the assignee email, and what
`create_meeting` returns for a user id and payload. -/
structure ClientEnv where
  get_user : String → Except PyError (Option BluejeansUser)
  create_meeting : Int → MeetingSettings → Except PyError Meeting

/-- The error raised out of `Backend.save_user_meeting`: the
`ValidationError` for a missing BlueJeans account, or a propagated client
exception. -/
inductive SaveError where
  | validation (msg : String) : SaveError
  | client (e : PyError) : SaveError
deriving DecidableEq, Repr

/-- The message of the `ValidationError` raised for an assignee without a
BlueJeans account. -/
def noAccountMessage (email : String) : String :=
  ("There is no BlueJeans account associated with ") ++ email ++
    (". Please log into umich.bluejeans.com, then try again.")

/-- The meeting-settings payload built inline by
`Backend.save_user_meeting`, with `roundedTime = round(time.time())`. -/
def saveMeetingSettings (roundedTime : Int) : MeetingSettings :=
  { title := "Remote Office Hours"
  , description :=
      ("This meeting was created by the Remote Office ") ++
        ("Hours Queue application. See ") ++
        ("https://documentation.its.umich.edu/node/1830")
  , moderatorLess := some true
  , start := roundedTime * 1000
  , finish := roundedTime * 1000 + (60 * 30 * 1000)
  , timezone := "America/Detroit"
  , endPointType := "WEB_APP"
  , endPointVersion := "2.10" }

/-- The meeting URL built by `save_user_meeting` from the created meeting:
the fixed prefix followed by the numeric meeting id. -/
def meetingUrl (m : Meeting) : String :=
  ("https://bluejeans.com/") ++ toString m.numericMeetingId

/-- The metadata dict after the in-place `backend_metadata.update(...)` of
`save_user_meeting`: the five derived keys written over the incoming
dict. -/
def provisionedMetadata (d : Dict) (u : BluejeansUser) (m : Meeting) : Dict :=
  Dict.update d
    [(("user_id"), Value.vint u.id),
     (("meeting_id"), Value.vint m.id),
     (("numeric_meeting_id"), Value.vint m.numericMeetingId),
     (("meeting_url"), Value.vstr (meetingUrl m)),
     (("host_meeting_url"), Value.vstr (meetingUrl m))]

/-- The outcome of one `save_user_meeting` call: the value returned or the
error raised, the final contents of the caller-owned metadata dict (the
Python code mutates it in place), and the trace of provider-client calls
issued. -/
structure SaveOutcome where
  result : Except SaveError Dict
  metadata : Dict
  calls : List ClientCall
deriving Repr

/-- Embeds `Backend.save_user_meeting(backend_metadata, assignee)`.
If `backend_metadata.get('meeting_id')` is truthy, return the dict as is.
Otherwise look up the assignee by email; if absent, raise the
ValidationError; otherwise create a meeting with the inline payload,
build `meeting_url` from the numeric meeting id, update the dict with the
five derived keys in place, and return it. -/
def save_user_meeting (env : ClientEnv) (roundedTime : Int)
    (backend_metadata : Dict) (assigneeEmail : String) : SaveOutcome :=
  if optTruthy (Dict.get backend_metadata ("meeting_id")) then
    { result := Except.ok backend_metadata
    , metadata := backend_metadata
    , calls := [] }
  else
    match env.get_user assigneeEmail with
    | Except.error e =>
        { result := Except.error (SaveError.client e)
        , metadata := backend_metadata
        , calls := [ClientCall.getUser assigneeEmail] }
    | Except.ok none =>
        { result := Except.error (SaveError.validation (noAccountMessage assigneeEmail))
        , metadata := backend_metadata
        , calls := [ClientCall.getUser assigneeEmail] }
    | Except.ok (some bj_user) =>
        match env.create_meeting bj_user.id (saveMeetingSettings roundedTime) with
        | Except.error e =>
            { result := Except.error (SaveError.client e)
            , metadata := backend_metadata
            , calls := [ClientCall.getUser assigneeEmail,
                        ClientCall.createMeeting bj_user.id
                          (saveMeetingSettings roundedTime)] }
        | Except.ok meeting =>
            { result := Except.ok (provisionedMetadata backend_metadata bj_user meeting)
            , metadata := provisionedMetadata backend_metadata bj_user meeting
            , calls := [ClientCall.getUser assigneeEmail,
                        ClientCall.createMeeting bj_user.id
                          (saveMeetingSettings roundedTime)] }

/-- A concrete BlueJeans user record used in witnesses. -/
def user0 : BluejeansUser :=
  { id := 1
  , uri := "/v1/user/1"
  , username := "user"
  , firstName := "First"
  , middleName := "M"
  , lastName := "Last"
  , email := "a@b" }

/-- A concrete created meeting used in witnesses, with the numeric meeting
id from the specification example. -/
def meeting0 : Meeting :=
  { id := 777, numericMeetingId := 1234567890 }

/-- A client environment in which the assignee has a BlueJeans account and
meeting creation succeeds. -/
def envFound : ClientEnv :=
  { get_user := fun _ => Except.ok (some user0)
  , create_meeting := fun _ _ => Except.ok meeting0 }

/-- A client environment in which the assignee has no BlueJeans account. -/
def envAbsent : ClientEnv :=
  { get_user := fun _ => Except.ok none
  , create_meeting := fun _ _ => Except.error PyError.indexError }

/-- A concrete token-endpoint response used in witnesses. -/
def tok0 : TokenResponse :=
  { status := 200
  , access_token := "tok"
  , expires_in := 3600
  , scope_enterprise := "ent" }

/-- A client state holding a token whose stored expiry lies in the
future, used in witnesses. -/
def stFresh : ClientState :=
  { access_token := some ("tok")
  , access_token_expires := 1000
  , enterprise_id := some ("ent")
  , session_authorization := some (("Bearer ") ++ ("tok")) }

/-- The client state expected after a refresh at time 100 answered by
`tok0`, used in witnesses. -/
def stAfter : ClientState :=
  { access_token := some ("tok")
  , access_token_expires := 100 - 3600 - 60
  , enterprise_id := some ("ent")
  , session_authorization := none }

/-- C2: after every successful token refresh, the stored expiry equals the
current time minus the returned lifetime minus 60 seconds, and the new
access token and the enterprise id from the nested scope field of the
response are stored. -/
theorem update_access_token_stores (st st2 : ClientState) (now : Int)
    (resp : TokenResponse)
    (h : update_access_token st now resp = Except.ok st2) :
    st2.access_token_expires = now - resp.expires_in - 60 ∧
    st2.access_token = some resp.access_token ∧
    st2.enterprise_id = some resp.scope_enterprise := by
  unfold update_access_token at h
  split at h
  · cases h
  · injection h with h2
    subst h2
    exact ⟨rfl, rfl, rfl⟩

/-- Witness for C2 at a concrete refresh: state after refreshing at time
100 with response `tok0`. -/
theorem update_access_token_stores_witness :
    stAfter.access_token_expires = 100 - tok0.expires_in - 60 ∧
    stAfter.access_token = some tok0.access_token ∧
    stAfter.enterprise_id = some tok0.scope_enterprise :=
  update_access_token_stores initClientState stAfter 100 tok0 rfl

theorem sessionCalls_fresh (st : ClientState) :
    ∀ steps : List (Int × Int × TokenResponse),
      (∀ s ∈ steps, s.1 ≤ st.access_token_expires) →
      sessionCalls st steps = (steps.map (fun _ => false), Except.ok st) := by
  intro steps
  induction steps with
  | nil => intro _; rfl
  | cons hd tl ih =>
      intro hfresh
      obtain ⟨c, r, resp⟩ := hd
      have h1 : c ≤ st.access_token_expires :=
        hfresh (c, r, resp) (List.mem_cons_self _ _)
      have h2 : ∀ s ∈ tl, s.1 ≤ st.access_token_expires :=
        fun s hs => hfresh s (List.mem_cons_of_mem _ hs)
      have hns : ¬ st.access_token_expires < c := not_lt.mpr h1
      simp only [sessionCalls, ensureSession, if_neg hns, ih h2, List.map]

/-- C3: a token refresh is performed at a session access if and only if
the current time has passed the stored expiry, and a client whose stored
token is fresh at every access of a sequence issues no token request and
keeps its state unchanged through the whole sequence. -/
theorem token_refresh_iff_expired (st : ClientState) (c r : Int)
    (resp : TokenResponse) (steps : List (Int × Int × TokenResponse))
    (hfresh : ∀ s ∈ steps, s.1 ≤ st.access_token_expires) :
    ((ensureSession st c r resp).2 = true ↔ st.access_token_expires < c) ∧
    sessionCalls st steps = (steps.map (fun _ => false), Except.ok st) := by
  constructor
  · unfold ensureSession
    by_cases h : st.access_token_expires < c
    · cases hu : update_access_token st r resp with
      | error e => simp [if_pos h, hu, h]
      | ok st2 => simp [if_pos h, hu, h]
    · simp [if_neg h, h]
  · exact sessionCalls_fresh st steps hfresh

/-- Witness for C3: with expiry 1000, an access at time 2000 refreshes,
while accesses at times 500 and 800 issue no token request and leave the
state unchanged. -/
theorem token_refresh_iff_expired_witness :
    ((ensureSession stFresh 2000 2000 tok0).2 = true ↔
        stFresh.access_token_expires < 2000) ∧
    sessionCalls stFresh [(500, 500, tok0), (800, 800, tok0)] =
      ([false, false], Except.ok stFresh) :=
  token_refresh_iff_expired stFresh 2000 2000 tok0
    [(500, 500, tok0), (800, 800, tok0)] (by decide)

/-- C1: for a metadata dict already carrying a (truthy) meeting id,
`save_user_meeting` returns the identical dict, leaves it untouched, and
issues no provider-client call. -/
theorem save_user_meeting_provisioned_idempotent (env : ClientEnv) (t : Int)
    (d : Dict) (email : String)
    (h : optTruthy (Dict.get d ("meeting_id")) = true) :
    save_user_meeting env t d email =
      { result := Except.ok d, metadata := d, calls := [] } := by
  unfold save_user_meeting
  rw [if_pos h]

/-- Witness for C1 at a concrete provisioned dict. -/
theorem save_user_meeting_provisioned_idempotent_witness :
    save_user_meeting envAbsent 0 [(("meeting_id"), Value.vint 123)] ("a@b") =
      { result := Except.ok [(("meeting_id"), Value.vint 123)]
      , metadata := [(("meeting_id"), Value.vint 123)]
      , calls := [] } :=
  save_user_meeting_provisioned_idempotent envAbsent 0
    [(("meeting_id"), Value.vint 123)] ("a@b") (by decide)

/-- C4 counterexample: status 304 is neither 2xx nor 404, yet `get_user`
does not raise there; it returns the single user of the body. -/
theorem get_user_non2xx_no_raise :
    get_user ("a@b") { status := 304, count := 1, users := [user0] } =
      Except.ok (some user0) := rfl

/-- C4 amended: `get_user` returns absence for a 404 status; raises for
any other status in 400..599; otherwise raises when the count exceeds 1,
returns absence when the count is 0, and returns the first listed user
when the count is 1. -/
theorem get_user_case_analysis (email : String) (resp : UsersResponse)
    (u : BluejeansUser) (rest : List BluejeansUser) :
    (resp.status = 404 → get_user email resp = Except.ok none) ∧
    (resp.status ≠ 404 → raisesForStatus resp.status = true →
        get_user email resp = Except.error (PyError.httpError resp.status)) ∧
    (resp.status ≠ 404 → raisesForStatus resp.status = false → resp.count > 1 →
        get_user email resp = Except.error (PyError.tooManyUsers email)) ∧
    (resp.status ≠ 404 → raisesForStatus resp.status = false → resp.count = 0 →
        get_user email resp = Except.ok none) ∧
    (resp.status ≠ 404 → raisesForStatus resp.status = false → resp.count = 1 →
        resp.users = u :: rest → get_user email resp = Except.ok (some u)) := by
  refine ⟨?_, ?_, ?_, ?_, ?_⟩
  · intro h
    simp [get_user, h]
  · intro h1 h2
    simp [get_user, h1, h2]
  · intro h1 h2 h3
    simp [get_user, h1, h2, h3]
  · intro h1 h2 h3
    simp [get_user, h1, h2, h3]
  · intro h1 h2 h3 h4
    simp [get_user, h1, h2, h3, h4]

/-- Witness for the amended C4 at one concrete response per case. -/
theorem get_user_case_analysis_witness :
    get_user ("a@b") { status := 404, count := 0, users := [] } = Except.ok none ∧
    get_user ("a@b") { status := 500, count := 0, users := [] } =
      Except.error (PyError.httpError 500) ∧
    get_user ("a@b") { status := 200, count := 2, users := [user0, user0] } =
      Except.error (PyError.tooManyUsers ("a@b")) ∧
    get_user ("a@b") { status := 200, count := 0, users := [] } = Except.ok none ∧
    get_user ("a@b") { status := 200, count := 1, users := [user0] } =
      Except.ok (some user0) :=
  ⟨(get_user_case_analysis ("a@b") { status := 404, count := 0, users := [] }
      user0 []).1 rfl,
   (get_user_case_analysis ("a@b") { status := 500, count := 0, users := [] }
      user0 []).2.1 (by decide) (by decide),
   (get_user_case_analysis ("a@b") { status := 200, count := 2, users := [user0, user0] }
      user0 []).2.2.1 (by decide) (by decide) (by decide),
   (get_user_case_analysis ("a@b") { status := 200, count := 0, users := [] }
      user0 []).2.2.2.1 (by decide) (by decide) rfl,
   (get_user_case_analysis ("a@b") { status := 200, count := 1, users := [user0] }
      user0 []).2.2.2.2 (by decide) (by decide) rfl rfl⟩

/-- C5: for an unprovisioned dict and an assignee without a BlueJeans
account, `save_user_meeting` raises the ValidationError, whose message
contains the assignee email and tells them to log into the BlueJeans web
portal. -/
theorem no_account_validation_error (env : ClientEnv) (t : Int) (d : Dict)
    (email : String)
    (hun : optTruthy (Dict.get d ("meeting_id")) = false)
    (habs : env.get_user email = Except.ok none) :
    (save_user_meeting env t d email).result =
      Except.error (SaveError.validation (noAccountMessage email)) ∧
    (∃ pre post, noAccountMessage email = pre ++ email ++ post) ∧
    (∃ pre post,
        noAccountMessage email =
          pre ++ ("log into umich.bluejeans.com") ++ post) := by
  refine ⟨?_, ?_, ?_⟩
  · unfold save_user_meeting
    rw [if_neg (by simp [hun]), habs]
  · exact ⟨("There is no BlueJeans account associated with "),
      (". Please log into umich.bluejeans.com, then try again."), rfl⟩
  · refine ⟨("There is no BlueJeans account associated with ") ++ email ++
      (". Please "), (", then try again."), ?_⟩
    unfold noAccountMessage
    simp only [String.append_assoc]
    congr 2

/-- Witness for C5 at a concrete absent assignee. -/
theorem no_account_validation_error_witness :
    (save_user_meeting envAbsent 0 [] ("a@b")).result =
      Except.error (SaveError.validation (noAccountMessage ("a@b"))) ∧
    (∃ pre post, noAccountMessage ("a@b") = pre ++ ("a@b") ++ post) ∧
    (∃ pre post,
        noAccountMessage ("a@b") =
          pre ++ ("log into umich.bluejeans.com") ++ post) :=
  no_account_validation_error envAbsent 0 [] ("a@b") rfl rfl

/-- C6: when `save_user_meeting` fails because the assignee has no
BlueJeans account, the caller-owned metadata dict is left exactly as it
was, so the record stays unprovisioned for a retry. -/
theorem no_account_leaves_metadata_unchanged (env : ClientEnv) (t : Int)
    (d : Dict) (email : String)
    (hun : optTruthy (Dict.get d ("meeting_id")) = false)
    (habs : env.get_user email = Except.ok none) :
    (save_user_meeting env t d email).metadata = d ∧
    (save_user_meeting env t d email).result =
      Except.error (SaveError.validation (noAccountMessage email)) := by
  unfold save_user_meeting
  rw [if_neg (by simp [hun]), habs]
  exact ⟨rfl, rfl⟩

/-- Witness for C6 at a concrete unprovisioned dict. -/
theorem no_account_leaves_metadata_unchanged_witness :
    (save_user_meeting envAbsent 0 [(("foo"), Value.vint 7)] ("a@b")).metadata =
      [(("foo"), Value.vint 7)] ∧
    (save_user_meeting envAbsent 0 [(("foo"), Value.vint 7)] ("a@b")).result =
      Except.error (SaveError.validation (noAccountMessage ("a@b"))) :=
  no_account_leaves_metadata_unchanged envAbsent 0 [(("foo"), Value.vint 7)]
    ("a@b") (by decide) rfl

theorem save_user_meeting_success (env : ClientEnv) (t : Int) (d : Dict)
    (email : String) (u : BluejeansUser) (m : Meeting)
    (hun : optTruthy (Dict.get d ("meeting_id")) = false)
    (hfound : env.get_user email = Except.ok (some u))
    (hcreate : env.create_meeting u.id (saveMeetingSettings t) = Except.ok m) :
    save_user_meeting env t d email =
      { result := Except.ok (provisionedMetadata d u m)
      , metadata := provisionedMetadata d u m
      , calls := [ClientCall.getUser email,
                  ClientCall.createMeeting u.id (saveMeetingSettings t)] } := by
  simp [save_user_meeting, hun, hfound, hcreate]

/-- C7: on successful provisioning, the returned dict binds meeting_url
and host_meeting_url to the same string, the fixed prefix followed by the
numeric meeting id, and also binds user_id, meeting_id and
numeric_meeting_id. -/
theorem meeting_urls_from_numeric_id (env : ClientEnv) (t : Int) (d : Dict)
    (email : String) (u : BluejeansUser) (m : Meeting)
    (hun : optTruthy (Dict.get d ("meeting_id")) = false)
    (hfound : env.get_user email = Except.ok (some u))
    (hcreate : env.create_meeting u.id (saveMeetingSettings t) = Except.ok m) :
    ∃ d2, (save_user_meeting env t d email).result = Except.ok d2 ∧
      Dict.get d2 ("meeting_url") =
        some (Value.vstr (("https://bluejeans.com/") ++
          toString m.numericMeetingId)) ∧
      Dict.get d2 ("host_meeting_url") =
        some (Value.vstr (("https://bluejeans.com/") ++
          toString m.numericMeetingId)) ∧
      Dict.get d2 ("user_id") = some (Value.vint u.id) ∧
      Dict.get d2 ("meeting_id") = some (Value.vint m.id) ∧
      Dict.get d2 ("numeric_meeting_id") = some (Value.vint m.numericMeetingId) := by
  rw [save_user_meeting_success env t d email u m hun hfound hcreate]
  refine ⟨provisionedMetadata d u m, rfl, ?_, ?_, ?_, ?_, ?_⟩
  · unfold provisionedMetadata meetingUrl
    simp only [Dict.update, List.foldl]
    rw [Dict.get_set_ne _ _ _ _ (by decide), Dict.get_set_eq]
  · unfold provisionedMetadata meetingUrl
    simp only [Dict.update, List.foldl]
    rw [Dict.get_set_eq]
  · unfold provisionedMetadata
    simp only [Dict.update, List.foldl]
    rw [Dict.get_set_ne _ _ _ _ (by decide), Dict.get_set_ne _ _ _ _ (by decide),
        Dict.get_set_ne _ _ _ _ (by decide), Dict.get_set_ne _ _ _ _ (by decide),
        Dict.get_set_eq]
  · unfold provisionedMetadata
    simp only [Dict.update, List.foldl]
    rw [Dict.get_set_ne _ _ _ _ (by decide), Dict.get_set_ne _ _ _ _ (by decide),
        Dict.get_set_ne _ _ _ _ (by decide), Dict.get_set_eq]
  · unfold provisionedMetadata
    simp only [Dict.update, List.foldl]
    rw [Dict.get_set_ne _ _ _ _ (by decide), Dict.get_set_ne _ _ _ _ (by decide),
        Dict.get_set_eq]

/-- Witness for C7 with the numeric meeting id 1234567890 of the
specification example. -/
theorem meeting_urls_from_numeric_id_witness :
    ∃ d2, (save_user_meeting envFound 0 [] ("a@b")).result = Except.ok d2 ∧
      Dict.get d2 ("meeting_url") =
        some (Value.vstr (("https://bluejeans.com/") ++
          toString meeting0.numericMeetingId)) ∧
      Dict.get d2 ("host_meeting_url") =
        some (Value.vstr (("https://bluejeans.com/") ++
          toString meeting0.numericMeetingId)) ∧
      Dict.get d2 ("user_id") = some (Value.vint user0.id) ∧
      Dict.get d2 ("meeting_id") = some (Value.vint meeting0.id) ∧
      Dict.get d2 ("numeric_meeting_id") =
        some (Value.vint meeting0.numericMeetingId) :=
  meeting_urls_from_numeric_id envFound 0 [] ("a@b") user0 meeting0 rfl rfl rfl

/-- C8: with no explicit meeting settings, the default payload of
`create_meeting` has end minus start equal to 1800000 milliseconds, and
start equal to the rounded current time in seconds times 1000. -/
theorem default_meeting_window (roundedTime : Int) :
    (create_meeting_payload roundedTime none).finish -
        (create_meeting_payload roundedTime none).start = 1800 * 1000 ∧
    (create_meeting_payload roundedTime none).start = roundedTime * 1000 := by
  constructor
  · show roundedTime * 1000 + (60 * 30 * 1000) - roundedTime * 1000 = 1800 * 1000
    omega
  · rfl

/-- C9: when the meeting_id key is present but bound to a falsy value,
`save_user_meeting` does not return early: its first client call is the
user lookup, and when lookup and creation succeed it also issues the
meeting-creation call. -/
theorem falsy_meeting_id_proceeds (env : ClientEnv) (t : Int) (d : Dict)
    (email : String) (v : Value)
    (hpresent : Dict.get d ("meeting_id") = some v)
    (hfalsy : v.truthy = false) :
    (∃ rest, (save_user_meeting env t d email).calls =
        ClientCall.getUser email :: rest) ∧
    (∀ u m, env.get_user email = Except.ok (some u) →
        env.create_meeting u.id (saveMeetingSettings t) = Except.ok m →
        (save_user_meeting env t d email).calls =
          [ClientCall.getUser email,
           ClientCall.createMeeting u.id (saveMeetingSettings t)]) := by
  constructor
  · cases hg : env.get_user email with
    | error e =>
        refine ⟨[], ?_⟩
        simp [save_user_meeting, hpresent, optTruthy, hfalsy, hg]
    | ok ou =>
        cases ou with
        | none =>
            refine ⟨[], ?_⟩
            simp [save_user_meeting, hpresent, optTruthy, hfalsy, hg]
        | some u =>
            cases hc : env.create_meeting u.id (saveMeetingSettings t) with
            | error e =>
                refine ⟨[ClientCall.createMeeting u.id (saveMeetingSettings t)], ?_⟩
                simp [save_user_meeting, hpresent, optTruthy, hfalsy, hg, hc]
            | ok m =>
                refine ⟨[ClientCall.createMeeting u.id (saveMeetingSettings t)], ?_⟩
                simp [save_user_meeting, hpresent, optTruthy, hfalsy, hg, hc]
  · intro u m hu hm
    simp [save_user_meeting, hpresent, optTruthy, hfalsy, hu, hm]

/-- Witness for C9 at a dict binding meeting_id to the falsy int 0. -/
theorem falsy_meeting_id_proceeds_witness :
    (∃ rest, (save_user_meeting envFound 0 [(("meeting_id"), Value.vint 0)]
        ("a@b")).calls = ClientCall.getUser ("a@b") :: rest) ∧
    (∀ u m, envFound.get_user ("a@b") = Except.ok (some u) →
        envFound.create_meeting u.id (saveMeetingSettings 0) = Except.ok m →
        (save_user_meeting envFound 0 [(("meeting_id"), Value.vint 0)]
            ("a@b")).calls =
          [ClientCall.getUser ("a@b"),
           ClientCall.createMeeting u.id (saveMeetingSettings 0)]) :=
  falsy_meeting_id_proceeds envFound 0 [(("meeting_id"), Value.vint 0)] ("a@b")
    (Value.vint 0) (by decide) rfl

/-- C10: on successful provisioning, the returned value is exactly the
final contents of the caller-owned dict, which is the incoming dict with
the five derived keys written; every key other than those five keeps its
prior binding. -/
theorem save_updates_metadata_frame (env : ClientEnv) (t : Int) (d : Dict)
    (email : String) (u : BluejeansUser) (m : Meeting)
    (hun : optTruthy (Dict.get d ("meeting_id")) = false)
    (hfound : env.get_user email = Except.ok (some u))
    (hcreate : env.create_meeting u.id (saveMeetingSettings t) = Except.ok m) :
    (save_user_meeting env t d email).result =
      Except.ok ((save_user_meeting env t d email).metadata) ∧
    (save_user_meeting env t d email).metadata = provisionedMetadata d u m ∧
    Dict.get (provisionedMetadata d u m) ("user_id") = some (Value.vint u.id) ∧
    Dict.get (provisionedMetadata d u m) ("meeting_id") = some (Value.vint m.id) ∧
    Dict.get (provisionedMetadata d u m) ("numeric_meeting_id") =
      some (Value.vint m.numericMeetingId) ∧
    Dict.get (provisionedMetadata d u m) ("meeting_url") =
      some (Value.vstr (meetingUrl m)) ∧
    Dict.get (provisionedMetadata d u m) ("host_meeting_url") =
      some (Value.vstr (meetingUrl m)) ∧
    (∀ k, k ≠ ("user_id") → k ≠ ("meeting_id") → k ≠ ("numeric_meeting_id") →
        k ≠ ("meeting_url") → k ≠ ("host_meeting_url") →
        Dict.get (provisionedMetadata d u m) k = Dict.get d k) := by
  rw [save_user_meeting_success env t d email u m hun hfound hcreate]
  refine ⟨rfl, rfl, ?_, ?_, ?_, ?_, ?_, ?_⟩
  · unfold provisionedMetadata
    simp only [Dict.update, List.foldl]
    rw [Dict.get_set_ne _ _ _ _ (by decide), Dict.get_set_ne _ _ _ _ (by decide),
        Dict.get_set_ne _ _ _ _ (by decide), Dict.get_set_ne _ _ _ _ (by decide),
        Dict.get_set_eq]
  · unfold provisionedMetadata
    simp only [Dict.update, List.foldl]
    rw [Dict.get_set_ne _ _ _ _ (by decide), Dict.get_set_ne _ _ _ _ (by decide),
        Dict.get_set_ne _ _ _ _ (by decide), Dict.get_set_eq]
  · unfold provisionedMetadata
    simp only [Dict.update, List.foldl]
    rw [Dict.get_set_ne _ _ _ _ (by decide), Dict.get_set_ne _ _ _ _ (by decide),
        Dict.get_set_eq]
  · unfold provisionedMetadata
    simp only [Dict.update, List.foldl]
    rw [Dict.get_set_ne _ _ _ _ (by decide), Dict.get_set_eq]
  · unfold provisionedMetadata
    simp only [Dict.update, List.foldl]
    rw [Dict.get_set_eq]
  · intro k h1 h2 h3 h4 h5
    unfold provisionedMetadata
    refine Dict.get_update_notin d _ k ?_
    intro kv hkv
    simp only [List.mem_cons, List.not_mem_nil, or_false] at hkv
    rcases hkv with rfl | rfl | rfl | rfl | rfl
    · exact Ne.symm h1
    · exact Ne.symm h2
    · exact Ne.symm h3
    · exact Ne.symm h4
    · exact Ne.symm h5

/-- Witness for C10 at a dict with one unrelated prior binding. -/
theorem save_updates_metadata_frame_witness :
    (save_user_meeting envFound 0 [(("foo"), Value.vstr ("bar"))]
        ("a@b")).result =
      Except.ok ((save_user_meeting envFound 0 [(("foo"), Value.vstr ("bar"))]
        ("a@b")).metadata) ∧
    (save_user_meeting envFound 0 [(("foo"), Value.vstr ("bar"))]
        ("a@b")).metadata =
      provisionedMetadata [(("foo"), Value.vstr ("bar"))] user0 meeting0 ∧
    Dict.get (provisionedMetadata [(("foo"), Value.vstr ("bar"))] user0 meeting0)
        ("user_id") = some (Value.vint user0.id) ∧
    Dict.get (provisionedMetadata [(("foo"), Value.vstr ("bar"))] user0 meeting0)
        ("meeting_id") = some (Value.vint meeting0.id) ∧
    Dict.get (provisionedMetadata [(("foo"), Value.vstr ("bar"))] user0 meeting0)
        ("numeric_meeting_id") = some (Value.vint meeting0.numericMeetingId) ∧
    Dict.get (provisionedMetadata [(("foo"), Value.vstr ("bar"))] user0 meeting0)
        ("meeting_url") = some (Value.vstr (meetingUrl meeting0)) ∧
    Dict.get (provisionedMetadata [(("foo"), Value.vstr ("bar"))] user0 meeting0)
        ("host_meeting_url") = some (Value.vstr (meetingUrl meeting0)) ∧
    (∀ k, k ≠ ("user_id") → k ≠ ("meeting_id") → k ≠ ("numeric_meeting_id") →
        k ≠ ("meeting_url") → k ≠ ("host_meeting_url") →
        Dict.get (provisionedMetadata [(("foo"), Value.vstr ("bar"))] user0 meeting0)
            k = Dict.get [(("foo"), Value.vstr ("bar"))] k) :=
  save_updates_metadata_frame envFound 0 [(("foo"), Value.vstr ("bar"))]
    ("a@b") user0 meeting0 (by decide) rfl rfl
